import Mathlib

/-!
Shallow embedding of the AlphaCycle.io event-analysis core
(backend/services/event-engines.js, toy-barometer.js, forward-returns.js,
contextual-filters.js) and proofs about the frozen claims.

Conventions of the embedding:
* JavaScript numbers are idealised as exact rationals;
* a JavaScript Date is modelled by its calendar day: either a `JDate`
  (year/month/day triple) or its day number (days since 1970-01-01,
  UTC, ignoring the time-of-day component);
* a JavaScript Map keyed by the ISO date string is modelled as a
  last-write-wins lookup over the backing list;
* thrown exceptions are modelled with `Except String`;
* string formatting (template literals, toFixed, emoji markers) is
  presentation only and is kept as raw numeric values.
-/

/-! ## Calendar model

`dateToDayNum`/`dayNumToDate` implement the standard proleptic-Gregorian
civil-calendar conversions (days counted from 1970-01-01).  `setDate`
mirrors `Date.prototype.setDate`: the day-of-month is replaced and
overflow past the end of the month rolls into the following months.
-/

structure JDate where
  year : Int
  month : Int
  day : Int
deriving DecidableEq, Repr

/-- Days since 1970-01-01 of a civil date (Gregorian, allowing day/month
overflow to normalise exactly the way JavaScript Date construction does
via the day-number arithmetic in `mkDate`/`setDate`). -/
def dateToDayNum (d : JDate) : Int :=
  let y := if d.month ≤ 2 then d.year - 1 else d.year
  let m := d.month
  let era : Int := Int.fdiv y 400
  let yoe : Int := y - era * 400
  let mp : Int := if m > 2 then m - 3 else m + 9
  let doy : Int := (153 * mp + 2).fdiv 5 + d.day - 1
  let doe : Int := yoe * 365 + yoe.fdiv 4 - yoe.fdiv 100 + doy
  era * 146097 + doe - 719468

/-- Civil date of a day number (inverse of `dateToDayNum` on valid dates). -/
def dayNumToDate (z0 : Int) : JDate :=
  let z := z0 + 719468
  let era : Int := Int.fdiv z 146097
  let doe : Int := z - era * 146097
  let yoe : Int := (doe - doe.fdiv 1460 + doe.fdiv 36524 - doe.fdiv 146096).fdiv 365
  let y : Int := yoe + era * 400
  let doy : Int := doe - (365 * yoe + yoe.fdiv 4 - yoe.fdiv 100)
  let mp : Int := (5 * doy + 2).fdiv 153
  let dd : Int := doy - (153 * mp + 2).fdiv 5 + 1
  let mm : Int := if mp < 10 then mp + 3 else mp - 9
  ⟨if mm ≤ 2 then y + 1 else y, mm, dd⟩

/-- `new Date(year, month-1, day)` — constructs the date, normalising
out-of-range days by rolling into adjacent months. -/
def mkDate (y m d : Int) : JDate :=
  dayNumToDate (dateToDayNum ⟨y, m, 1⟩ + (d - 1))

/-- `d.setDate(x)` — replaces the day-of-month of `d` by `x`,
normalising overflow relative to `d`'s *current* month. -/
def setDate (d : JDate) (x : Int) : JDate :=
  dayNumToDate (dateToDayNum ⟨d.year, d.month, 1⟩ + (x - 1))

/-- `Date.prototype.getDay`: 0 = Sunday … 6 = Saturday
(1970-01-01 was a Thursday). -/
def weekday (dayNum : Int) : Int :=
  (dayNum + 4).emod 7

/-! ## BaseEventEngine (event-engines.js lines 10-54)

`safeExecute` is the fault-isolation wrapper: the wrapped algorithm is a
computation that either returns a value or throws (`Except String α`).
-/

structure Health where
  healthy : Bool
  lastError : Option String
  successCount : Nat
  errorCount : Nat
deriving DecidableEq, Repr

/-- The structured outcome `safeExecute` hands back to the caller. -/
inductive SafeResult (α : Type) where
  | success (data : α)
  | failure (error : String) (fallback : String)
deriving DecidableEq, Repr

/-- `BaseEventEngine.getFallbackMessage`. -/
def getFallbackMessage (name : String) : String :=
  name ++ " engine is temporarily unavailable. Please try again later."

/-- `BaseEventEngine.safeExecute`: runs the algorithm, catching any
exception; updates the health counters and converts the outcome into a
structured success/failure value.  Returns the result together with the
engine state after the call. -/
def safeExecute (name : String) (st : Health) (comp : Except String α) :
    SafeResult α × Health :=
  match comp with
  | .ok r =>
      (SafeResult.success r,
       { st with successCount := st.successCount + 1,
                 healthy := true, lastError := none })
  | .error e =>
      (SafeResult.failure (name ++ " analysis unavailable: " ++ e)
        (getFallbackMessage name),
       { st with errorCount := st.errorCount + 1,
                 healthy := false, lastError := some e })

/-- C1 -- `safeExecute` never lets an exception propagate: a throwing
algorithm yields a structured failure and bumps `errorCount` by one, a
succeeding algorithm yields a structured success and bumps
`successCount` by one; exactly one counter changes per call and neither
counter decreases. -/
theorem safeExecute_fault_isolation {α : Type} (name : String) (st : Health)
    (comp : Except String α) :
    (∀ e, comp = .error e →
      (safeExecute name st comp).1 =
        SafeResult.failure (name ++ " analysis unavailable: " ++ e)
          (getFallbackMessage name) ∧
      (safeExecute name st comp).2.errorCount = st.errorCount + 1 ∧
      (safeExecute name st comp).2.successCount = st.successCount) ∧
    (∀ a, comp = .ok a →
      (safeExecute name st comp).1 = SafeResult.success a ∧
      (safeExecute name st comp).2.successCount = st.successCount + 1 ∧
      (safeExecute name st comp).2.errorCount = st.errorCount) ∧
    st.successCount ≤ (safeExecute name st comp).2.successCount ∧
    st.errorCount ≤ (safeExecute name st comp).2.errorCount ∧
    (safeExecute name st comp).2.successCount +
      (safeExecute name st comp).2.errorCount =
      st.successCount + st.errorCount + 1 := by
  refine ⟨?_, ?_, ?_, ?_, ?_⟩
  · intro e h
    subst h
    exact ⟨rfl, rfl, rfl⟩
  · intro a h
    subst h
    exact ⟨rfl, rfl, rfl⟩
  · cases comp <;> simp [safeExecute]
  · cases comp <;> simp [safeExecute]
  · cases comp <;> simp [safeExecute] <;> omega

/-- Witness for C1: the wrapper at a concrete throwing computation. -/
theorem safeExecute_fault_isolation_witness :
    (safeExecute "Percent Move" ⟨true, none, 0, 0⟩
        (Except.error (α := Nat) "boom")).1 =
      SafeResult.failure ("Percent Move analysis unavailable: boom")
        (getFallbackMessage "Percent Move") ∧
    (safeExecute "Percent Move" ⟨true, none, 0, 0⟩
        (Except.error (α := Nat) "boom")).2.errorCount = 1 := by
  have h := safeExecute_fault_isolation (α := Nat) "Percent Move"
    ⟨true, none, 0, 0⟩ (Except.error "boom")
  exact ⟨(h.1 "boom" rfl).1, (h.1 "boom" rfl).2.1⟩

/-! ## VolatilityEngine (event-engines.js lines 371-441)

The engine fetches a volatility-index series and inner-joins it with the
price series on date (`_alignDataSeries`); that I/O and join step is
upstream of the scanning loop, which consumes the aligned rows below.
Row fields: `aOpen`/`aClose` from the price series, `bClose` the
volatility-index close of the same date.  (`matchList` renders the JS
`matches` array.)
-/

structure AlignedRow where
  date : Int
  aOpen : ℚ
  aClose : ℚ
  bClose : ℚ
deriving DecidableEq, Repr

structure VolMatch where
  date : Int
  vixLevel : ℚ
  priceChange : ℚ
  price : ℚ
deriving DecidableEq, Repr

/-- The price-condition check of `_analyzeVolatility`'s loop body: the
`let priceConditionMet = true` / `if … else if … else if …` chain
(lines 393-403). -/
def volPriceCondMet (cond : String) (pt : ℚ)
    (prevAClose curAOpen curAClose : ℚ) : Bool :=
  let priceChange := (curAClose - prevAClose) / prevAClose * 100
  if cond = "down" ∧ priceChange ≥ -|pt| then false
  else if cond = "up" ∧ priceChange ≤ |pt| then false
  else if cond = "gap_down" ∧ priceChange ≥ -|pt| then
    decide ((curAOpen - prevAClose) / prevAClose * 100 ≤ -|pt|)
  else true

/-- Whole match decision for aligned day `cur` with predecessor `prev`:
`vixLevel >= vix_threshold && priceConditionMet`. -/
def volMatchAt (vt : ℚ) (cond : String) (pt : ℚ)
    (prev cur : AlignedRow) : Bool :=
  decide (vt ≤ cur.bClose) && volPriceCondMet cond pt prev.aClose cur.aOpen cur.aClose

def mkVolMatch (prev cur : AlignedRow) : VolMatch :=
  ⟨cur.date, cur.bClose, (cur.aClose - prev.aClose) / prev.aClose * 100, cur.aClose⟩

/-- The scanning loop of `_analyzeVolatility` (`for i = 1; i < length`),
walking the aligned rows and carrying the previous row. -/
def volLoop (vt : ℚ) (cond : String) (pt : ℚ) :
    List AlignedRow → AlignedRow → List VolMatch
  | [], _ => []
  | cur :: rest, prev =>
      if volMatchAt vt cond pt prev cur then
        mkVolMatch prev cur :: volLoop vt cond pt rest cur
      else
        volLoop vt cond pt rest cur

structure VolResult where
  matchList : List VolMatch
  totalMatches : Nat
  avgVix : ℚ
deriving DecidableEq, Repr

/-- `VolatilityEngine._analyzeVolatility` from the aligned series on
(summary keeps the numeric aggregates; the criteria string is
presentation only). -/
def analyzeVolatility (aligned : List AlignedRow) (vt : ℚ) (cond : String)
    (pt : ℚ) : VolResult :=
  let ms :=
    match aligned with
    | [] => []
    | first :: rest => volLoop vt cond pt rest first
  { matchList := ms
    totalMatches := ms.length
    avgVix :=
      if ms.length > 0 then
        (ms.map (·.vixLevel)).sum / ms.length
      else 0 }

/-- The loop is exactly a filter-map over consecutive aligned pairs. -/
theorem volLoop_eq_filter (vt : ℚ) (cond : String) (pt : ℚ) :
    ∀ (rest : List AlignedRow) (prev : AlignedRow),
      volLoop vt cond pt rest prev =
        (((prev :: rest).zip rest).filter
            (fun pc => volMatchAt vt cond pt pc.1 pc.2)).map
          (fun pc => mkVolMatch pc.1 pc.2)
  | [], _ => rfl
  | cur :: rest, prev => by
      rw [volLoop]
      by_cases h : volMatchAt vt cond pt prev cur
      · simp [h, volLoop_eq_filter vt cond pt rest cur]
      · simp [h, volLoop_eq_filter vt cond pt rest cur]

/-- C5 (amended) -- with `price_condition = 'gap_down'` an aligned day
matches iff the volatility close is at least `vix_threshold` AND
(the close-to-close change is below `-|price_threshold|` OR the open
gap `(open_i - close_(i-1))/close_(i-1)` is at most
`-|price_threshold|`): the gap test is only consulted when the
close-to-close change has not already fallen below the threshold; the
match list is exactly the consecutive aligned pairs passing this
decision. -/
theorem volatility_gap_down_decision (vt pt : ℚ) (aligned : List AlignedRow) :
    (analyzeVolatility aligned vt "gap_down" pt).matchList =
      ((aligned.zip aligned.tail).filter
          (fun pc => volMatchAt vt "gap_down" pt pc.1 pc.2)).map
        (fun pc => mkVolMatch pc.1 pc.2) ∧
    ∀ prev cur : AlignedRow,
      volMatchAt vt "gap_down" pt prev cur = true ↔
        (vt ≤ cur.bClose ∧
          ((cur.aClose - prev.aClose) / prev.aClose * 100 < -|pt| ∨
           (cur.aOpen - prev.aClose) / prev.aClose * 100 ≤ -|pt|)) := by
  constructor
  · cases aligned with
    | nil => rfl
    | cons first rest =>
        simpa [analyzeVolatility] using volLoop_eq_filter vt "gap_down" pt rest first
  · intro prev cur
    simp only [volMatchAt, volPriceCondMet, Bool.and_eq_true, decide_eq_true_eq]
    by_cases hcc : (cur.aClose - prev.aClose) / prev.aClose * 100 ≥ -|pt|
    · simp only [if_neg, if_pos, hcc, and_true, and_false]
      constructor
      · rintro ⟨h1, h2⟩
        exact ⟨h1, Or.inr (by simpa using h2)⟩
      · rintro ⟨h1, h2⟩
        refine ⟨h1, ?_⟩
        rcases h2 with h | h
        · exact absurd hcc (not_le.mpr h)
        · simpa using h
    · simp only [hcc, and_false, if_false, if_neg]
      constructor
      · rintro ⟨h1, _⟩
        exact ⟨h1, Or.inl (lt_of_not_ge hcc)⟩
      · rintro ⟨h1, _⟩
        exact ⟨h1, rfl⟩

/-- Counterexample to C5 as stated: a day whose close-to-close decline
already exceeds the threshold matches even though its open gap is
positive (open 101 against previous close 100, gap +1%), so the gap
condition is not what decides: with vix_threshold 25 and
price_threshold 2 the day is a match although its gap +1% is not at
most -2%. -/
theorem volatility_gap_down_counterexample :
    (analyzeVolatility
        [⟨0, 100, 100, 20⟩, ⟨1, 101, 90, 30⟩] 25 "gap_down" 2).matchList =
      [⟨1, 30, -10, 90⟩] ∧
    ¬ (((101 : ℚ) - 100) / 100 * 100 ≤ -|(2 : ℚ)|) := by
  constructor
  · simp only [analyzeVolatility, volLoop, volMatchAt, volPriceCondMet, mkVolMatch]
    norm_num
    decide
  · norm_num

/-! ## MomentumEngine (event-engines.js lines 247-365)

`PricePoint` is the fetched OHLCV bar; the `sma` field models the
dynamically added JavaScript property (`none` = property absent).
`_calculateSMA` starts from `const result = [...data]`, a *shallow*
copy: the array is new but its elements are the caller's own objects,
so `result[i].sma = …` writes through to the input series.
`calculateSMA` below therefore gives both the returned array's contents
and the contents of the input array's elements after the call.
(For `period = 0` the JS code throws on `result[-1]` and the engine
wrapper converts that into a failure with no matches; the embedding is
used with `period ≥ 1`.)
-/

structure PricePoint where
  date : Int
  openPrice : ℚ
  highPrice : ℚ
  lowPrice : ℚ
  closePrice : ℚ
  volume : ℚ
  sma : Option ℚ
deriving DecidableEq, Repr

def defaultPP : PricePoint := ⟨0, 0, 0, 0, 0, 0, none⟩

/-- The simple moving average written at index `i`
(`sum of closes over [i-period+1, i] / period`). -/
def smaAt (data : List PricePoint) (period i : Nat) : ℚ :=
  (((List.range' (i + 1 - period) period).map
      (fun j => (data.getD j defaultPP).closePrice)).sum) / period

/-- `MomentumEngine._calculateSMA` -- also the post-call state of the
input array's elements (see the section comment on aliasing). -/
def calculateSMA (data : List PricePoint) (period : Nat) : List PricePoint :=
  data.mapIdx (fun i p =>
    if period - 1 ≤ i then { p with sma := some (smaAt data period i) } else p)

/-- JS `x <= y` where `y` may be `undefined` (comparison with undefined
is false). -/
def leOpt (x : ℚ) (y : Option ℚ) : Bool :=
  match y with
  | some v => decide (x ≤ v)
  | none => false

/-- JS `x >= y` with a possibly-undefined `y`. -/
def geOpt (x : ℚ) (y : Option ℚ) : Bool :=
  match y with
  | some v => decide (v ≤ x)
  | none => false

/-- The bullish forward-window scan (`for j = i; j < i + days`):
invalidates when a close is at or below its SMA, else tracks the
running peak and worst drawdown from that peak; `none` = invalidated. -/
def bullScan : List PricePoint → ℚ → ℚ → Option ℚ
  | [], _, ext => some ext
  | p :: rest, highest, ext =>
      if leOpt p.closePrice p.sma then none
      else
        let highest' := if p.closePrice > highest then p.closePrice else highest
        let dd := (p.closePrice - highest') / highest' * 100
        let ext' := if dd < ext then dd else ext
        bullScan rest highest' ext'

/-- The bearish forward-window scan: invalidates when a close is at or
above its SMA, else tracks the running trough and largest rally. -/
def bearScan : List PricePoint → ℚ → ℚ → Option ℚ
  | [], _, ext => some ext
  | p :: rest, lowest, ext =>
      if geOpt p.closePrice p.sma then none
      else
        let lowest' := if p.closePrice < lowest then p.closePrice else lowest
        let rally := (p.closePrice - lowest') / lowest' * 100
        let ext' := if rally > ext then rally else ext
        bearScan rest lowest' ext'

/-- One recorded momentum match (bullish rows carry
`maxDrawdown`/`daysAboveSMA`, bearish rows `maxRally`/`daysBelowSMA`;
both are the `extreme` and `days` fields here). -/
structure MomMatch where
  date : Int
  startPrice : ℚ
  endPrice : ℚ
  extreme : ℚ
  periodReturn : ℚ
  days : Nat
deriving DecidableEq, Repr

def mkMomMatch (dws : List PricePoint) (i days : Nat) (ext : ℚ) : MomMatch :=
  let startPrice := (dws.getD i defaultPP).closePrice
  let endP := (dws.getD (i + days) defaultPP).closePrice
  ⟨(dws.getD (i + days) defaultPP).date, startPrice, endP, ext,
    (endP / startPrice - 1) * 100, days⟩

/-- The 30-day deduplication gate: skip a candidate when its end date is
less than `minGapDays` (30) after the last recorded match's end date. -/
def momSkip (lm : Option Int) (currentDate : Int) : Bool :=
  match lm with
  | some d => decide (currentDate - d < 30)
  | none => false

/-- Per-candidate decision of `_analyzeMomentum`'s loop body: the
window scan plus the threshold check, returning the recorded extreme
value on a match. -/
def momCandidate (dws : List PricePoint) (days : Nat) (mtype : String)
    (threshold : ℚ) (i : Nat) : Option ℚ :=
  if mtype = "bullish" then
    match bullScan ((dws.drop i).take days) (dws.getD i defaultPP).closePrice 0 with
    | none => none
    | some ext => if ext ≥ -|threshold| then some ext else none
  else if mtype = "bearish" then
    match bearScan ((dws.drop i).take days) (dws.getD i defaultPP).closePrice 0 with
    | none => none
    | some ext => if ext ≤ |threshold| then some ext else none
  else none

/-- The candidate-index loop of `_analyzeMomentum`, carrying
`lastMatchDate` for the 30-day deduplication gap. -/
def momLoop (dws : List PricePoint) (days : Nat) (mtype : String)
    (threshold : ℚ) : List Nat → Option Int → List MomMatch
  | [], _ => []
  | i :: rest, lm =>
      let currentDate := (dws.getD (i + days) defaultPP).date
      if momSkip lm currentDate then
        momLoop dws days mtype threshold rest lm
      else
        match momCandidate dws days mtype threshold i with
        | some ext =>
            mkMomMatch dws i days ext ::
              momLoop dws days mtype threshold rest (some currentDate)
        | none => momLoop dws days mtype threshold rest lm

/-- `MomentumEngine._analyzeMomentum`: candidate start indices run from
`sma_period` up to (exclusive) `length - days`. -/
def analyzeMomentum (data : List PricePoint) (smaPeriod days : Nat)
    (mtype : String) (threshold : ℚ) : List MomMatch :=
  let dws := calculateSMA data smaPeriod
  momLoop dws days mtype threshold
    (List.range' smaPeriod (dws.length - days - smaPeriod)) none

/-- Every match produced under `lastMatchDate = some d` is dated at
least 30 days after `d`. -/
theorem momLoop_lower_bound (dws : List PricePoint) (days : Nat)
    (mtype : String) (threshold : ℚ) :
    ∀ (idxs : List Nat) (d : Int) (m : MomMatch),
      m ∈ momLoop dws days mtype threshold idxs (some d) →
      d + 30 ≤ m.date := by
  intro idxs
  induction idxs with
  | nil => intro d m h; simp [momLoop] at h
  | cons i rest ih =>
      intro d m h
      rw [momLoop] at h
      by_cases hskip : momSkip (some d) (dws.getD (i + days) defaultPP).date = true
      · rw [if_pos hskip] at h
        exact ih d m h
      · rw [if_neg hskip] at h
        have hge : d + 30 ≤ (dws.getD (i + days) defaultPP).date := by
          simp only [momSkip, decide_eq_true_eq] at hskip
          omega
        cases hc : momCandidate dws days mtype threshold i with
        | none => rw [hc] at h; exact ih d m h
        | some ext =>
            rw [hc] at h
            rcases List.mem_cons.mp h with hm | hm
            · subst hm
              simpa [mkMomMatch] using hge
            · have := ih ((dws.getD (i + days) defaultPP).date) m hm
              omega

/-- The match list of the loop is 30-day separated, whatever the
carried `lastMatchDate`. -/
theorem momLoop_pairwise (dws : List PricePoint) (days : Nat)
    (mtype : String) (threshold : ℚ) :
    ∀ (idxs : List Nat) (lm : Option Int),
      (momLoop dws days mtype threshold idxs lm).Pairwise
        (fun a b => a.date + 30 ≤ b.date) := by
  intro idxs
  induction idxs with
  | nil => intro lm; simp [momLoop]
  | cons i rest ih =>
      intro lm
      rw [momLoop]
      by_cases hskip : momSkip lm (dws.getD (i + days) defaultPP).date = true
      · rw [if_pos hskip]
        exact ih lm
      · rw [if_neg hskip]
        cases hc : momCandidate dws days mtype threshold i with
        | none => exact ih lm
        | some ext =>
            refine List.pairwise_cons.mpr ⟨?_, ih _⟩
            intro m hm
            have := momLoop_lower_bound dws days mtype threshold rest
              ((dws.getD (i + days) defaultPP).date) m hm
            simpa [mkMomMatch] using this

/-- C6 -- in the MomentumEngine output, any two distinct matches' end
dates are at least 30 days apart (candidate windows ending within 30
days of the last recorded match are skipped, so each later match is
dated at least 30 days after every earlier one). -/
theorem momentum_dedup_30_days (data : List PricePoint)
    (smaPeriod days : Nat) (mtype : String) (threshold : ℚ) :
    (analyzeMomentum data smaPeriod days mtype threshold).Pairwise
      (fun a b => a.date + 30 ≤ b.date) :=
  momLoop_pairwise _ _ _ _ _ none

/-- C9 -- contrary to the immutability of fetched PricePoints, running
the MomentumEngine writes `sma` properties through the shallow copy
`[...data]` into the caller's own PricePoint objects: after
`_calculateSMA` on a one-bar series with `sma_period = 1` the input's
element carries `sma = close`, whereas before the call it had no `sma`
field. -/
theorem momentum_sma_mutates_input :
    (calculateSMA [⟨0, 100, 100, 100, 100, 1000, none⟩] 1).map (·.sma) =
      [some 100] ∧
    ([(⟨0, 100, 100, 100, 100, 1000, none⟩ : PricePoint)]).map (·.sma) =
      [none] ∧
    calculateSMA [⟨0, 100, 100, 100, 100, 1000, none⟩] 1 ≠
      [⟨0, 100, 100, 100, 100, 1000, none⟩] := by
  have h1 : (calculateSMA [⟨0, 100, 100, 100, 100, 1000, none⟩] 1).map (·.sma) =
      [some 100] := by
    simp [calculateSMA, smaAt, List.range']
  refine ⟨h1, rfl, ?_⟩
  intro h
  rw [h] at h1
  simp at h1

/-! ## ExtendedForwardReturnsCalculator (forward-returns.js)

`calculate` consumes the full price series and a match list.  Formatted
strings (`+x.xx%`, emoji markers, `$` prices, `N/A`) are kept as raw
numbers, with `Option` distinguishing the `N/A` cells and the rows
without samples (a sample-less JS row simply lacks the
`returnVolRatio` property; the sort comparator reads it as 0 via
`|| 0`).  The `returnVolRatio` number `stdDev > 0 ? avg/stdDev : 0` is
carried as the pair (average, population variance) from which it is
`rvr avg variance` with `stdDev = Real.sqrt variance`; the comparator
`rvrLeB` below decides the real-number comparison of two such ratios
exactly, by rational sign and squaring analysis. -/

structure FRMatch where
  date : Int
deriving DecidableEq, Repr

/-- Last-write-wins date lookup, as built by
`data.forEach((item, index) => dataByDate.set(dateStr, {...item, index}))`. -/
def lookupByDate (data : List PricePoint) (d : Int) : Option (PricePoint × Nat) :=
  data.enum.foldl
    (fun acc ip => if ip.2.date = d then some (ip.2, ip.1) else acc) none

/-- The default 11-timeframe map (label, trading-day offset). -/
def defaultPeriods : List (String × Nat) :=
  [("1D", 1), ("2D", 2), ("3D", 3), ("4D", 4), ("1W", 5), ("2W", 10),
   ("1M", 21), ("2M", 42), ("3M", 63), ("6M", 126), ("12M", 252)]

/-- One per-timeframe accumulator of `performanceData`. -/
structure PerfEntry where
  label : String
  returns : List ℚ
  winCount : Nat
  totalCount : Nat
deriving DecidableEq, Repr

/-- The matches found in the series (skipping, with a warning, matches
whose date is absent), with their series index. -/
def processedMatches (data : List PricePoint) (ms : List FRMatch) :
    List (PricePoint × Nat) :=
  ms.filterMap (fun m => lookupByDate data m.date)

/-- Forward return of a located match at `offset` trading days, `none`
past the end of the series. -/
def forwardReturn (data : List PricePoint) (p : PricePoint) (idx offset : Nat) :
    Option ℚ :=
  if idx + offset < data.length then
    some (((data.getD (idx + offset) defaultPP).closePrice - p.closePrice) /
      p.closePrice * 100)
  else none

/-- `performanceData` after the match-processing loop: per timeframe the
returns of every located match whose forward index is in bounds, in
match order, with the win and total counters. -/
def perfDataOf (data : List PricePoint) (ms : List FRMatch)
    (periods : List (String × Nat)) : List PerfEntry :=
  periods.map (fun lp =>
    let rets := (processedMatches data ms).filterMap
      (fun pi => forwardReturn data pi.1 pi.2 lp.2)
    ⟨lp.1, rets, (rets.filter (fun r => 0 < r)).length, rets.length⟩)

/-- One results-table row (per located match). -/
structure FRRow where
  matchDate : Int
  price : ℚ
  perPeriod : List (String × Option ℚ)
deriving DecidableEq, Repr

/-- Per-timeframe aggregate statistics (population variance; the
standard deviation of the code is its real square root). -/
structure PeriodStats where
  avgReturn : ℚ
  winRate : ℚ
  maxReturn : ℚ
  minReturn : ℚ
  variance : ℚ
deriving DecidableEq, Repr

def listMax : List ℚ → ℚ
  | [] => 0
  | x :: xs => xs.foldl max x

def listMin : List ℚ → ℚ
  | [] => 0
  | x :: xs => xs.foldl min x

/-- The statistics block shared by `calculateSummaryStats` and
`generatePerformanceTable` for a timeframe with at least one return. -/
def statsOf (e : PerfEntry) : PeriodStats :=
  let avg := e.returns.sum / e.returns.length
  { avgReturn := avg
    winRate := (e.winCount : ℚ) / e.totalCount * 100
    maxReturn := listMax e.returns
    minReturn := listMin e.returns
    variance := (e.returns.map (fun r => (r - avg) ^ 2)).sum / e.returns.length }

/-- A row of the ranked performance table: `stats = none` is the
`N/A` row pushed when a timeframe collected no returns (such a row has
no `returnVolRatio` property; the comparator treats it as 0). -/
structure PerfRow where
  timeframe : String
  stats : Option PeriodStats
  samples : Nat
deriving DecidableEq, Repr

/-- The rows in timeframe order, before sorting. -/
def unsortedRows (perf : List PerfEntry) : List PerfRow :=
  perf.map (fun e =>
    if e.returns.isEmpty then ⟨e.label, none, 0⟩
    else ⟨e.label, some (statsOf e), e.totalCount⟩)

/-- The real-number return/volatility ratio
`stdDev > 0 ? avgReturn / stdDev : 0` with `stdDev = Real.sqrt variance`. -/
noncomputable def rvr (a v : ℚ) : ℝ :=
  if 0 < v then (a : ℝ) / Real.sqrt (v : ℝ) else 0

/-- Decides `rvr a1 v1 ≤ rvr a2 v2` by rational arithmetic (sign
analysis plus squaring away the square roots); `rvrLeB_iff` proves it
agrees with the real comparison. -/
def rvrLeB (a1 v1 a2 v2 : ℚ) : Bool :=
  if 0 < v1 then
    if 0 < v2 then
      if 0 < a1 then
        if 0 < a2 then decide (a1 ^ 2 * v2 ≤ a2 ^ 2 * v1) else false
      else
        if 0 < a2 then true
        else decide (a2 ^ 2 * v1 ≤ a1 ^ 2 * v2)
    else decide (a1 ≤ 0)
  else
    if 0 < v2 then decide (0 ≤ a2) else true

/-- The sort key of a row: its `returnVolRatio || 0`. -/
noncomputable def rowKey (r : PerfRow) : ℝ :=
  match r.stats with
  | some s => rvr s.avgReturn s.variance
  | none => 0

/-- The (average, variance) pair representing a row's sort key. -/
def rowPair (r : PerfRow) : ℚ × ℚ :=
  match r.stats with
  | some s => (s.avgReturn, s.variance)
  | none => (0, 0)

/-- The comparator of `table.rows.sort((a, b) =>
(b.returnVolRatio || 0) - (a.returnVolRatio || 0))`: row `r1` may come
before `r2` iff `key r2 ≤ key r1` (descending). -/
def rowLeB (r1 r2 : PerfRow) : Bool :=
  rvrLeB (rowPair r2).1 (rowPair r2).2 (rowPair r1).1 (rowPair r1).2

/-- Key-equivalence of rows (equal real ratios), decidably. -/
def rowKeyEqB (r1 r2 : PerfRow) : Bool :=
  rowLeB r1 r2 && rowLeB r2 r1

def tableHeaders : List String :=
  ["Timeframe", "Avg Return", "Win Rate", "Best", "Worst", "Volatility",
   "Samples"]

structure PerfTable where
  headers : List String
  rows : List PerfRow
  message : Option String
deriving DecidableEq, Repr

/-- `generatePerformanceTable`: build the rows in timeframe order, then
sort by return/volatility ratio descending.  JavaScript's
`Array.prototype.sort` is stable, which `List.mergeSort` models. -/
def generatePerformanceTable (perf : List PerfEntry) : PerfTable :=
  { headers := tableHeaders
    rows := (unsortedRows perf).mergeSort rowLeB
    message := none }

/-- `getEmptyPerformanceTable`. -/
def getEmptyPerformanceTable : PerfTable :=
  { headers := tableHeaders
    rows := []
    message := some "No historical matches found for analysis" }

structure CalcSummary where
  totalMatches : Nat
  message : Option String
  analysisPeriod : Option String
  perPeriod : List (String × Option PeriodStats)
  bestTimeframe : Option String
deriving DecidableEq, Repr

/-- `findBestPerformingPeriods`: timeframes with data ranked by the
combined score `avgReturn * winRate / 100`, descending. -/
def bestPerformingPeriods (perf : List PerfEntry) : List String :=
  (((perf.filter (fun e => !e.returns.isEmpty)).map
      (fun e => (e.label, (statsOf e).avgReturn * ((statsOf e).winRate / 100)))).mergeSort
    (fun a b => decide (b.2 ≤ a.2))).map (fun p => p.1)

/-- `calculateSummaryStats` (numeric content; the per-period formatted
strings and the key-insight sentence are presentation only). -/
def calculateSummaryStats (perf : List PerfEntry) (totalMatches : Nat) :
    CalcSummary :=
  { totalMatches := totalMatches
    message := none
    analysisPeriod := some "2020-2024"
    perPeriod := perf.map (fun e =>
      (e.label, if e.returns.isEmpty then none else some (statsOf e)))
    bestTimeframe := (bestPerformingPeriods perf).head? }

structure CalcResult where
  results : List FRRow
  summary : CalcSummary
  performanceTable : PerfTable
deriving DecidableEq, Repr

/-- The short-circuit result for a missing or empty match list. -/
def emptyCalcResult : CalcResult :=
  { results := []
    summary :=
      { totalMatches := 0
        message := some "No historical instances found for this event pattern"
        analysisPeriod := none
        perPeriod := []
        bestTimeframe := none }
    performanceTable := getEmptyPerformanceTable }

/-- The per-match results rows. -/
def frRows (data : List PricePoint) (ms : List FRMatch)
    (periods : List (String × Nat)) : List FRRow :=
  (processedMatches data ms).map (fun pi =>
    ⟨pi.1.date, pi.1.closePrice,
      periods.map (fun lp => (lp.1, forwardReturn data pi.1 pi.2 lp.2))⟩)

/-- The main branch of `calculate` (non-empty match list). -/
def mainCalc (data : List PricePoint) (ms : List FRMatch)
    (customPeriods : Option (List (String × Nat))) : CalcResult :=
  let periods := customPeriods.getD defaultPeriods
  let perf := perfDataOf data ms periods
  { results := frRows data ms periods
    summary := calculateSummaryStats perf ms.length
    performanceTable := generatePerformanceTable perf }

/-- `ExtendedForwardReturnsCalculator.calculate`: a missing (`null`) or
empty match list short-circuits to the explicit empty result. -/
def calculate (data : List PricePoint) (ms : Option (List FRMatch))
    (customPeriods : Option (List (String × Nat))) : CalcResult :=
  match ms with
  | none => emptyCalcResult
  | some [] => emptyCalcResult
  | some (m :: rest) => mainCalc data (m :: rest) customPeriods

/-- C8 -- `calculate` on a missing or empty match list returns the
explicit empty result object (empty results, summary with total
matches 0 and a message, empty performance table) and, being a total
function of its inputs, never raises. -/
theorem calculate_empty_matches (data : List PricePoint)
    (cp : Option (List (String × Nat))) :
    calculate data none cp = emptyCalcResult ∧
    calculate data (some []) cp = emptyCalcResult ∧
    emptyCalcResult.results = [] ∧
    emptyCalcResult.summary.totalMatches = 0 ∧
    emptyCalcResult.summary.message =
      some "No historical instances found for this event pattern" ∧
    emptyCalcResult.performanceTable.rows = [] ∧
    emptyCalcResult.performanceTable.message =
      some "No historical matches found for analysis" :=
  ⟨rfl, rfl, rfl, rfl, rfl, rfl, rfl⟩


/-- The rational comparator decides the real comparison of
return/volatility ratios. -/
theorem rvrLeB_iff (a1 v1 a2 v2 : ℚ) :
    rvrLeB a1 v1 a2 v2 = true ↔ rvr a1 v1 ≤ rvr a2 v2 := by
  unfold rvrLeB rvr
  by_cases h1 : 0 < v1 <;> by_cases h2 : 0 < v2 <;>
    simp only [h1, h2, if_true, if_false, if_pos, if_neg, not_false_eq_true,
      decide_eq_true_eq]
  · have hc1 : (0:ℝ) < (v1 : ℝ) := by exact_mod_cast h1
    have hc2 : (0:ℝ) < (v2 : ℝ) := by exact_mod_cast h2
    have hs1 : (0:ℝ) < Real.sqrt (v1 : ℝ) := Real.sqrt_pos.2 hc1
    have hs2 : (0:ℝ) < Real.sqrt (v2 : ℝ) := Real.sqrt_pos.2 hc2
    have hq1 : Real.sqrt (v1 : ℝ) ^ 2 = (v1 : ℝ) := Real.sq_sqrt hc1.le
    have hq2 : Real.sqrt (v2 : ℝ) ^ 2 = (v2 : ℝ) := Real.sq_sqrt hc2.le
    rw [div_le_div_iff hs1 hs2]
    by_cases ha1 : 0 < a1 <;> by_cases ha2 : 0 < a2 <;>
      simp only [ha1, ha2, if_true, if_false, if_pos, if_neg,
        not_false_eq_true, decide_eq_true_eq]
    · -- 0 < a1, 0 < a2
      have hb1 : (0:ℝ) ≤ (a1 : ℝ) * Real.sqrt (v2 : ℝ) := by
        have h : (0:ℝ) < (a1 : ℝ) := by exact_mod_cast ha1
        positivity
      have hb2 : (0:ℝ) ≤ (a2 : ℝ) * Real.sqrt (v1 : ℝ) := by
        have h : (0:ℝ) < (a2 : ℝ) := by exact_mod_cast ha2
        positivity
      rw [← pow_le_pow_iff_left hb1 hb2 (two_ne_zero), mul_pow, mul_pow,
        hq1, hq2]
      constructor
      · intro h
        have h' : (a1:ℝ) ^ 2 * (v2:ℝ) ≤ (a2:ℝ) ^ 2 * (v1:ℝ) := by exact_mod_cast h
        linarith
      · intro h
        have h' : (a1:ℝ) ^ 2 * (v2:ℝ) ≤ (a2:ℝ) ^ 2 * (v1:ℝ) := by linarith
        exact_mod_cast h'
    · -- 0 < a1, ¬ 0 < a2 : comparator false, real comparison false
      have hp : (0:ℝ) < (a1 : ℝ) * Real.sqrt (v2 : ℝ) := by
        have h : (0:ℝ) < (a1 : ℝ) := by exact_mod_cast ha1
        positivity
      have hn : (a2 : ℝ) * Real.sqrt (v1 : ℝ) ≤ 0 := by
        have h : (a2 : ℝ) ≤ 0 := by exact_mod_cast not_lt.mp ha2
        exact mul_nonpos_of_nonpos_of_nonneg h hs1.le
      constructor
      · intro h
        exact absurd h (by simp)
      · intro h
        exfalso
        linarith
    · -- ¬ 0 < a1, 0 < a2 : comparator true, real comparison true
      have hn : (a1 : ℝ) * Real.sqrt (v2 : ℝ) ≤ 0 := by
        have h : (a1 : ℝ) ≤ 0 := by exact_mod_cast not_lt.mp ha1
        exact mul_nonpos_of_nonpos_of_nonneg h hs2.le
      have hp : (0:ℝ) ≤ (a2 : ℝ) * Real.sqrt (v1 : ℝ) := by
        have h : (0:ℝ) ≤ (a2 : ℝ) := by exact_mod_cast ha2.le
        positivity
      constructor
      · intro _
        linarith
      · intro _
        trivial
    · -- ¬ 0 < a1, ¬ 0 < a2
      have hn1 : (a1 : ℝ) ≤ 0 := by exact_mod_cast not_lt.mp ha1
      have hn2 : (a2 : ℝ) ≤ 0 := by exact_mod_cast not_lt.mp ha2
      have hb1 : (0:ℝ) ≤ -(a2 : ℝ) * Real.sqrt (v1 : ℝ) :=
        mul_nonneg (by linarith) hs1.le
      have hb2 : (0:ℝ) ≤ -(a1 : ℝ) * Real.sqrt (v2 : ℝ) :=
        mul_nonneg (by linarith) hs2.le
      have key : ((a1:ℝ) * Real.sqrt (v2:ℝ) ≤ (a2:ℝ) * Real.sqrt (v1:ℝ)) ↔
          (-(a2:ℝ) * Real.sqrt (v1:ℝ) ≤ -(a1:ℝ) * Real.sqrt (v2:ℝ)) := by
        constructor <;> intro h <;> linarith
      rw [key, ← pow_le_pow_iff_left hb1 hb2 (two_ne_zero), mul_pow, mul_pow,
        hq1, hq2, neg_pow, neg_pow]
      constructor
      · intro h
        have h' : (a2:ℝ) ^ 2 * (v1:ℝ) ≤ (a1:ℝ) ^ 2 * (v2:ℝ) := by exact_mod_cast h
        simp only [even_two, Even.neg_pow] at *
        linarith
      · intro h
        have h' : (a2:ℝ) ^ 2 * (v1:ℝ) ≤ (a1:ℝ) ^ 2 * (v2:ℝ) := by
          simp only [even_two, Even.neg_pow] at h
          linarith
        exact_mod_cast h'
  · -- 0 < v1, v2 ≤ 0 : right ratio is 0
    have hc1 : (0:ℝ) < (v1 : ℝ) := by exact_mod_cast h1
    have hs1 : (0:ℝ) < Real.sqrt (v1 : ℝ) := Real.sqrt_pos.2 hc1
    rw [div_le_iff hs1, zero_mul]
    exact Rat.cast_nonpos.symm
  · -- v1 ≤ 0, 0 < v2 : left ratio is 0
    have hc2 : (0:ℝ) < (v2 : ℝ) := by exact_mod_cast h2
    have hs2 : (0:ℝ) < Real.sqrt (v2 : ℝ) := Real.sqrt_pos.2 hc2
    rw [le_div_iff hs2, zero_mul]
    exact Rat.cast_nonneg.symm
  · simp

/-- A row's real sort key through its representing pair. -/
theorem rowKey_eq_rvr (r : PerfRow) :
    rowKey r = rvr (rowPair r).1 (rowPair r).2 := by
  cases hr : r.stats with
  | none => simp [rowKey, rowPair, hr, rvr]
  | some s => simp [rowKey, rowPair, hr]

/-- The row comparator decides the descending key comparison. -/
theorem rowLeB_iff (r1 r2 : PerfRow) :
    rowLeB r1 r2 = true ↔ rowKey r2 ≤ rowKey r1 := by
  rw [rowLeB, rvrLeB_iff, rowKey_eq_rvr, rowKey_eq_rvr]

theorem rowLeB_trans (a b c : PerfRow) (hab : rowLeB a b) (hbc : rowLeB b c) :
    rowLeB a c = true :=
  (rowLeB_iff a c).2 (le_trans ((rowLeB_iff b c).1 hbc) ((rowLeB_iff a b).1 hab))

theorem rowLeB_total (a b : PerfRow) : rowLeB a b || rowLeB b a := by
  rcases le_total (rowKey a) (rowKey b) with h | h
  · have := (rowLeB_iff b a).2 h
    simp [this]
  · have := (rowLeB_iff a b).2 h
    simp [this]

/-- Key-equivalence is exactly equality of real keys. -/
theorem rowKeyEqB_iff (r1 r2 : PerfRow) :
    rowKeyEqB r1 r2 = true ↔ rowKey r1 = rowKey r2 := by
  rw [rowKeyEqB, Bool.and_eq_true, rowLeB_iff, rowLeB_iff]
  constructor
  · rintro ⟨h1, h2⟩
    exact le_antisymm h2 h1
  · intro h
    exact ⟨h.ge, h.le⟩

/-- The generated table's rows are sorted descending by real key. -/
theorem gpt_rows_sorted (perf : List PerfEntry) :
    (generatePerformanceTable perf).rows.Pairwise
      (fun r1 r2 => rowKey r2 ≤ rowKey r1) := by
  have h := List.sorted_mergeSort
    (fun a b c => rowLeB_trans a b c)
    (fun a b => rowLeB_total a b) (unsortedRows perf)
  exact h.imp (fun hab => (rowLeB_iff _ _).1 hab)

/-- Stability: within each key-equivalence class the sorted rows are
the unsorted rows, in the same order. -/
theorem gpt_rows_stable (perf : List PerfEntry) (q : PerfRow) :
    (generatePerformanceTable perf).rows.filter (fun r => rowKeyEqB r q) =
      (unsortedRows perf).filter (fun r => rowKeyEqB r q) := by
  have hperm : List.Perm
      (((unsortedRows perf).mergeSort rowLeB).filter (fun r => rowKeyEqB r q))
      ((unsortedRows perf).filter (fun r => rowKeyEqB r q)) :=
    (List.mergeSort_perm (unsortedRows perf) rowLeB).filter _
  have hpair : ((unsortedRows perf).filter (fun r => rowKeyEqB r q)).Pairwise
      (fun a b => rowLeB a b) := by
    apply List.pairwise_of_forall_mem_list
    intro a ha b hb
    have ha' := (List.mem_filter.mp ha).2
    have hb' := (List.mem_filter.mp hb).2
    have hka : rowKey a = rowKey q := (rowKeyEqB_iff a q).1 ha'
    have hkb : rowKey b = rowKey q := (rowKeyEqB_iff b q).1 hb'
    exact (rowLeB_iff a b).2 (by rw [hka, hkb])
  have hsub : List.Sublist
      ((unsortedRows perf).filter (fun r => rowKeyEqB r q))
      ((unsortedRows perf).mergeSort rowLeB) :=
    List.sublist_mergeSort (fun a b c => rowLeB_trans a b c)
      (fun a b => rowLeB_total a b) hpair (List.filter_sublist _)
  have hsub2 : List.Sublist
      ((unsortedRows perf).filter (fun r => rowKeyEqB r q))
      (((unsortedRows perf).mergeSort rowLeB).filter (fun r => rowKeyEqB r q)) := by
    have h := hsub.filter (fun r => rowKeyEqB r q)
    simp only [List.filter_filter, Bool.and_self] at h
    exact h
  have : (unsortedRows perf).filter (fun r => rowKeyEqB r q) =
      ((unsortedRows perf).mergeSort rowLeB).filter (fun r => rowKeyEqB r q) :=
    hsub2.eq_of_length hperm.length_eq.symm
  exact this.symm

/-- `rvr` in terms of the standard deviation, as the code writes it
(`stdDev > 0 ? avgReturn / stdDev : 0`). -/
theorem rvr_eq_stdDev_form (a v : ℚ) :
    rvr a v =
      if 0 < Real.sqrt (v : ℝ) then (a : ℝ) / Real.sqrt (v : ℝ) else 0 := by
  unfold rvr
  by_cases hv : 0 < v
  · rw [if_pos hv, if_pos (Real.sqrt_pos.2 (by exact_mod_cast hv))]
  · have hle : (v : ℝ) ≤ 0 := by exact_mod_cast not_lt.mp hv
    have h0 : Real.sqrt (v : ℝ) = 0 := Real.sqrt_eq_zero'.mpr hle
    rw [if_neg hv, if_neg]
    intro hpos
    rw [h0] at hpos
    exact lt_irrefl 0 hpos

/-- C4 -- for a non-empty match list the performance-table rows are
sorted in descending order of return/volatility ratio, where each
row's ratio is its average return divided by the population standard
deviation (`Real.sqrt variance`) when that is positive and 0 when it
is 0 (also for the sample-less rows, whose missing ratio reads as 0);
rows with equal ratios keep their original timeframe order (the JS
sort is stable). -/
theorem performance_table_sorted (data : List PricePoint)
    (ms : List FRMatch) (cp : Option (List (String × Nat))) (h : ms ≠ []) :
    ((calculate data (some ms) cp).performanceTable.rows).Pairwise
      (fun r1 r2 => rowKey r2 ≤ rowKey r1) ∧
    (∀ r ∈ (calculate data (some ms) cp).performanceTable.rows,
      rowKey r =
        match r.stats with
        | some s =>
            if 0 < Real.sqrt (s.variance : ℝ)
            then (s.avgReturn : ℝ) / Real.sqrt (s.variance : ℝ) else 0
        | none => 0) ∧
    (∀ q : PerfRow,
      ((calculate data (some ms) cp).performanceTable.rows).filter
          (fun r => rowKeyEqB r q) =
        (unsortedRows (perfDataOf data ms (cp.getD defaultPeriods))).filter
          (fun r => rowKeyEqB r q)) ∧
    (∀ r1 r2 : PerfRow, rowKeyEqB r1 r2 = true ↔ rowKey r1 = rowKey r2) := by
  match ms, h with
  | m :: rest, _ =>
    have hrows : (calculate data (some (m :: rest)) cp).performanceTable =
        generatePerformanceTable
          (perfDataOf data (m :: rest) (cp.getD defaultPeriods)) := rfl
    refine ⟨?_, ?_, ?_, ?_⟩
    · rw [hrows]
      exact gpt_rows_sorted _
    · intro r _
      rw [rowKey_eq_rvr]
      cases hr : r.stats with
      | none => simp [rowPair, hr, rvr]
      | some s => simp [rowPair, hr, rvr_eq_stdDev_form]
    · intro q
      rw [hrows]
      exact gpt_rows_stable _ q
    · exact rowKeyEqB_iff

/-- Witness for C4 at a concrete two-bar series and one match. -/
theorem performance_table_sorted_witness :
    ((calculate [⟨0, 1, 1, 1, 100, 0, none⟩, ⟨1, 1, 1, 1, 110, 0, none⟩]
        (some [⟨0⟩]) none).performanceTable.rows).Pairwise
      (fun r1 r2 => rowKey r2 ≤ rowKey r1) :=
  (performance_table_sorted
    [⟨0, 1, 1, 1, 100, 0, none⟩, ⟨1, 1, 1, 1, 110, 0, none⟩]
    [⟨0⟩] none (by simp)).1

/-! ## TOYBarometerEngine (toy-barometer.js)

The MM-DD parameters are modelled as lists of characters so the
pattern test (`/^\d{1,2}-\d{1,2}$/`) and `parseInt` are executable in
the kernel; other strings stay `String`.  The class body defines
`analyzeTOYPeriod`, `calculateTOYSummary` and `generateTOYInsight`
twice; in JavaScript the later definition wins, so the embeddings
follow the second of each (lines 305-369, 432-493, 495-513).  Engine
health-counter updates around `analyze` mirror `safeExecute` and are
covered by the `Health` model above.  Error messages drop the
interpolated year (presentation only). -/

/-- `split('-')` over the characters of an MM-DD parameter. -/
def splitDash : List Char → List Char → List (List Char)
  | [], acc => [acc.reverse]
  | c :: rest, acc =>
      if c = '-' then acc.reverse :: splitDash rest []
      else splitDash rest (c :: acc)

/-- `parseInt` on an already-validated decimal digit string. -/
def digitsToNat (cs : List Char) : Nat :=
  cs.foldl (fun n c => n * 10 + (c.toNat - 48)) 0

/-- One side of `/^\d{1,2}-\d{1,2}$/`: one or two decimal digits. -/
def isShortDigits (cs : List Char) : Bool :=
  decide (1 ≤ cs.length) && decide (cs.length ≤ 2) && cs.all Char.isDigit

/-- The `datePattern` regex test. -/
def mmddPattern (s : List Char) : Bool :=
  match splitDash s [] with
  | [a, b] => isShortDigits a && isShortDigits b
  | _ => false

/-- Month of a validated MM-DD parameter. -/
def mmOf (s : List Char) : Int :=
  digitsToNat ((splitDash s []).getD 0 [])

/-- Day of a validated MM-DD parameter. -/
def ddOf (s : List Char) : Int :=
  digitsToNat ((splitDash s []).getD 1 [])

/-- `TOYBarometerEngine.validateTOYDates` (lines 126-161). -/
def validateTOYDates (toyStart toyEnd : List Char) : List String :=
  let errs :=
    (if mmddPattern toyStart then []
     else ["TOY start date must be in MM-DD format (e.g., 11-19)"]) ++
    (if mmddPattern toyEnd then []
     else ["TOY end date must be in MM-DD format (e.g., 01-19)"])
  if errs.isEmpty then
    (if mmOf toyStart < 1 ∨ mmOf toyStart > 12 then
       ["Start month must be between 1-12"] else []) ++
    (if mmOf toyEnd < 1 ∨ mmOf toyEnd > 12 then
       ["End month must be between 1-12"] else []) ++
    (if ddOf toyStart < 1 ∨ ddOf toyStart > 31 then
       ["Start day must be between 1-31"] else []) ++
    (if ddOf toyEnd < 1 ∨ ddOf toyEnd > 31 then
       ["End day must be between 1-31"] else [])
  else errs

/-- TOY request parameters (defaults applied). -/
structure TOYParams where
  ticker : String
  first_year : Int
  last_year : Int
  toy_start : List Char
  toy_end : List Char
  threshold : ℚ
  forward_days : List Nat
deriving DecidableEq, Repr

/-- `TOYBarometerEngine.validateParameters` (lines 545-568) -- defined
on the class but never invoked anywhere in the repository.  The
`parameters.x &&` truthiness guards are the `≠ 0` / `≠ []`
conditions. -/
def validateParameters (p : TOYParams) : List String :=
  (if p.threshold ≠ 0 ∧ (p.threshold < 0 ∨ p.threshold > 20) then
     ["Threshold should be between 0% and 20%"] else []) ++
  (if p.first_year ≠ 0 ∧ p.last_year ≠ 0 ∧ p.first_year ≥ p.last_year then
     ["First year must be before last year"] else []) ++
  (if p.toy_start ≠ [] ∧ ¬ mmddPattern p.toy_start then
     ["TOY start date must be in MM-DD format"] else []) ++
  (if p.toy_end ≠ [] ∧ ¬ mmddPattern p.toy_end then
     ["TOY end date must be in MM-DD format"] else [])

/-- The forward/backward search steps of `findNearestTradingDay`:
iteration `i` executes `searchDate.setDate(targetDate.getDate() ± i)`
on the *mutated* `searchDate`, so once the day-of-month overflows the
current month the base month is no longer the target's. -/
def fntdAux (dir : String) (targetDay : Int) (trading : List Int) :
    List Nat → JDate → Option Int
  | [], _ => none
  | i :: rest, search =>
      let s' := setDate search
        (if dir = "after" then targetDay + i else targetDay - i)
      if dateToDayNum s' ∈ trading then some (dateToDayNum s')
      else fntdAux dir targetDay trading rest s'

/-- `TOYBarometerEngine.findNearestTradingDay` (lines 371-397): exact
match first, then up to `maxSearchDays = 10` search steps. -/
def findNearestTradingDay (target : JDate) (trading : List Int)
    (dir : String) : Option Int :=
  if dateToDayNum target ∈ trading then some (dateToDayNum target)
  else fntdAux dir target.day trading (List.range' 1 10) target

/-- `getTradingDaysBetween`: walk one calendar day at a time counting
non-weekend days, inclusive of both ends. -/
def gtdbAux : Nat → Int → Nat → Nat
  | 0, _, acc => acc
  | fuel + 1, cur, acc =>
      gtdbAux fuel (cur + 1)
        (if weekday cur ≠ 0 ∧ weekday cur ≠ 6 then acc + 1 else acc)

def getTradingDaysBetween (startD endD : Int) : Nat :=
  gtdbAux (endD - startD + 1).toNat startD 0

/-- `mapDaysToLabel`'s `labelMap` (note the duplicate labels for
20/21, 40/42 and 60/63). -/
def labelMap : List (Nat × String) :=
  [(1, "1D"), (2, "2D"), (3, "3D"), (4, "4D"), (5, "1W"), (10, "2W"),
   (15, "3W"), (20, "1M"), (21, "1M"), (40, "2M"), (42, "2M"),
   (60, "3M"), (63, "3M"), (126, "6M"), (252, "12M")]

def mapDaysToLabel (days : Nat) : String :=
  ((labelMap.find? (fun p => p.1 = days)).map (fun p => p.2)).getD
    (toString days ++ "D")

/-- JS object property write: replace in place if the key exists
(keeping its position), else append. -/
def setAssoc (l : List (String × Option ℚ)) (k : String) (v : Option ℚ) :
    List (String × Option ℚ) :=
  if l.any (fun p => p.1 = k) then
    l.map (fun p => if p.1 = k then (k, v) else p)
  else l ++ [(k, v)]

/-- `calculateForwardReturns` of the TOY engine (lines 399-420):
per requested offset, the labelled forward return from the end-of-window
index, `none` past the series end. -/
def calculateForwardReturnsTOY (data : List PricePoint) (startIndex : Nat)
    (forwardDays : List Nat) : List (String × Option ℚ) :=
  let startPrice := (data.getD startIndex defaultPP).closePrice
  forwardDays.foldl (fun acc days =>
    let lbl := mapDaysToLabel days ++ "_return"
    if startIndex + days < data.length then
      setAssoc acc lbl
        (some (((data.getD (startIndex + days) defaultPP).closePrice -
          startPrice) / startPrice * 100))
    else setAssoc acc lbl none) []

structure TOYEvent where
  date : Int
  year : Int
  toyStartDate : Int
  toyEndDate : Int
  toyReturn : ℚ
  signal : String
  startPrice : ℚ
  endPrice : ℚ
  periodDays : Nat
  forwardReturns : List (String × Option ℚ)
deriving DecidableEq, Repr

structure TOYResult where
  event : TOYEvent
  toyReturn : ℚ
  signal : String
  forwardReturns : List (String × Option ℚ)
deriving DecidableEq, Repr

/-- `TOYBarometerEngine.analyzeTOYPeriod` (second definition, lines
305-369).  Throws (models as `.error`) when no trading day is found
for a boundary or the located date is missing from the data map. -/
def analyzeTOYPeriod (year : Int) (toyStartMD toyEndMD : List Char)
    (data : List PricePoint) (threshold : ℚ) (forwardDays : List Nat) :
    Except String TOYResult :=
  let startMonth := mmOf toyStartMD
  let startDay := ddOf toyStartMD
  let endMonth := mmOf toyEndMD
  let endDay := ddOf toyEndMD
  let toyEndYear := if endMonth < startMonth then year + 1 else year
  let toyStart := mkDate year startMonth startDay
  let toyEnd := mkDate toyEndYear endMonth endDay
  let trading := data.map (fun p => p.date)
  match findNearestTradingDay toyStart trading "after",
      findNearestTradingDay toyEnd trading "after" with
  | some startTD, some endTD =>
      match lookupByDate data startTD, lookupByDate data endTD with
      | some startData, some endData =>
          let toyReturn := ((endData.1.closePrice - startData.1.closePrice) /
            startData.1.closePrice) * 100
          let signal :=
            if toyReturn ≥ threshold then "Bullish"
            else if toyReturn < 0 then "Bearish"
            else "Neutral"
          let fr := calculateForwardReturnsTOY data endData.2 forwardDays
          Except.ok
            { event :=
                { date := endData.1.date
                  year := year
                  toyStartDate := startData.1.date
                  toyEndDate := endData.1.date
                  toyReturn := toyReturn
                  signal := signal
                  startPrice := startData.1.closePrice
                  endPrice := endData.1.closePrice
                  periodDays :=
                    getTradingDaysBetween startData.1.date endData.1.date
                  forwardReturns := fr }
              toyReturn := toyReturn
              signal := signal
              forwardReturns := fr }
      | _, _ => Except.error "Missing price data for TOY period"
  | _, _ => Except.error "No trading days found for TOY period"

/-- Numeric content of `generateTOYInsight` (second definition):
bullish rate, average TOY return, best and worst year by TOY return
(the sentence it is formatted into is presentation). -/
structure TOYInsight where
  bullishRate : ℚ
  avgReturn : ℚ
  bestYear : Int
  bestReturn : ℚ
  worstYear : Int
  worstReturn : ℚ
deriving DecidableEq, Repr

def generateTOYInsight (tps : List TOYResult) (threshold : ℚ) :
    Option TOYInsight :=
  if tps.isEmpty then none
  else
    let sorted := tps.mergeSort (fun a b => decide (b.toyReturn ≤ a.toyReturn))
    some
    { bullishRate :=
        ((tps.filter (fun p => threshold ≤ p.toyReturn)).length : ℚ) /
          tps.length * 100
      avgReturn := (tps.map (fun p => p.toyReturn)).sum / tps.length
      bestYear := ((sorted.head?.map (fun p => p.event.year)).getD 0)
      bestReturn := ((sorted.head?.map (fun p => p.toyReturn)).getD 0)
      worstYear := ((sorted.getLast?.map (fun p => p.event.year)).getD 0)
      worstReturn := ((sorted.getLast?.map (fun p => p.toyReturn)).getD 0) }

/-- Property read `p.event[period]` with `undefined` and `null`
distinguished (`none` = property absent). -/
def lookupFR (e : TOYEvent) (k : String) : Option (Option ℚ) :=
  (e.forwardReturns.find? (fun p => p.1 = k)).map (fun p => p.2)

/-- The returns kept by `.filter(r => r !== null && r !== undefined)`. -/
def collectFR (tps : List TOYResult) (k : String) : List ℚ :=
  tps.filterMap (fun p =>
    match lookupFR p.event k with
    | some (some r) => some r
    | _ => none)

/-- Numeric content of `calculateTOYSummary` (second definition, lines
432-493; the call site passes two extra arguments which this
two-parameter definition ignores).  Percentage strings are kept as
rationals; `forwardStats` holds the `signal_period_avg` and
`signal_period_win_rate` entries. -/
structure TOYSummary where
  message : Option String
  bullishPeriods : Nat
  bearishPeriods : Nat
  neutralPeriods : Nat
  bullishRate : Option ℚ
  bearishRate : Option ℚ
  avgBullishToyReturn : Option ℚ
  avgBearishToyReturn : Option ℚ
  forwardStats : List (String × ℚ)
  insight : Option TOYInsight
deriving DecidableEq, Repr

def forwardPeriodKeys : List String :=
  ["1M_return", "3M_return", "6M_return", "12M_return"]

def signalStats (name : String) (periods : List TOYResult) :
    List (String × ℚ) :=
  if periods.isEmpty then []
  else forwardPeriodKeys.foldl (fun acc k =>
    let rets := collectFR periods k
    if rets.isEmpty then acc
    else
      acc ++
        [(name ++ "_" ++ (k.dropRight 7) ++ "_avg",
            rets.sum / rets.length),
         (name ++ "_" ++ (k.dropRight 7) ++ "_win_rate",
            ((rets.filter (fun r => 0 < r)).length : ℚ) / rets.length * 100)]) []

def calculateTOYSummary (tps : List TOYResult) (threshold : ℚ) : TOYSummary :=
  if tps.isEmpty then
    { message := some "No TOY periods analyzed"
      bullishPeriods := 0, bearishPeriods := 0, neutralPeriods := 0
      bullishRate := none, bearishRate := none
      avgBullishToyReturn := none, avgBearishToyReturn := none
      forwardStats := [], insight := none }
  else
    let bullish := tps.filter (fun p => threshold ≤ p.toyReturn)
    let bearish := tps.filter (fun p => p.toyReturn < 0)
    let neutral := tps.filter (fun p => 0 ≤ p.toyReturn ∧ p.toyReturn < threshold)
    { message := none
      bullishPeriods := bullish.length
      bearishPeriods := bearish.length
      neutralPeriods := neutral.length
      bullishRate := some ((bullish.length : ℚ) / tps.length * 100)
      bearishRate := some ((bearish.length : ℚ) / tps.length * 100)
      avgBullishToyReturn :=
        if bullish.isEmpty then none
        else some ((bullish.map (fun p => p.toyReturn)).sum / bullish.length)
      avgBearishToyReturn :=
        if bearish.isEmpty then none
        else some ((bearish.map (fun p => p.toyReturn)).sum / bearish.length)
      forwardStats :=
        signalStats "bullish" bullish ++ signalStats "bearish" bearish ++
          signalStats "neutral" neutral
      insight := generateTOYInsight tps threshold }

/-- The value of `TOYBarometerEngine.analyze`: the structured success
payload or the caught-failure record. -/
inductive TOYResponse where
  | success (matchEvents : List TOYEvent) (totalPeriods : Nat)
      (toyPeriods : List TOYResult) (summary : TOYSummary)
  | failure (error : String) (fallback : String)
deriving DecidableEq, Repr

def TOYResponse.isSuccess : TOYResponse → Bool
  | .success _ _ _ _ => true
  | .failure _ _ => false

def TOYResponse.periods : TOYResponse → List TOYResult
  | .success _ _ tps _ => tps
  | .failure _ _ => []

/-- `for (let year = first_year; year <= last_year; year++)`. -/
def yearRange (a b : Int) : List Int :=
  (List.range (b + 1 - a).toNat).map (fun i => a + i)

/-- The per-year loop of `analyze` (lines 57-70): each year's
`analyzeTOYPeriod` runs inside its own try/catch, so a throwing year is
skipped (with a logged warning) and iteration continues. -/
def toyLoop (f : Int → Except String TOYResult) : List Int → List TOYResult
  | [] => []
  | y :: ys =>
      match f y with
      | .ok r => r :: toyLoop f ys
      | .error _ => toyLoop f ys

/-- `TOYBarometerEngine.analyze` (lines 19-124): date validation, the
data-availability check, the guarded per-year loop, then the summary.
The data fetch is the external market-data collaborator, so the fetched
series is a parameter.  Note `analyze` never calls
`validateParameters`: only `validateTOYDates` runs, so `threshold` and
`first_year`/`last_year` are not checked. -/
def TOYanalyze (p : TOYParams) (data : List PricePoint) : TOYResponse :=
  let dateErrors := validateTOYDates p.toy_start p.toy_end
  if ¬ dateErrors.isEmpty then
    .failure ("TOY analysis failed: Invalid TOY dates: " ++
        String.intercalate ", " dateErrors)
      "TOY engine is temporarily unavailable"
  else if data.isEmpty then
    .failure ("TOY analysis failed: No data available for " ++ p.ticker)
      "TOY engine is temporarily unavailable"
  else
    let tps := toyLoop
      (fun y => analyzeTOYPeriod y p.toy_start p.toy_end data p.threshold
        p.forward_days)
      (yearRange p.first_year p.last_year)
    .success (tps.map (fun r => r.event)) (tps.map (fun r => r.event)).length
      tps (calculateTOYSummary tps p.threshold)

/-- C3 -- the forward search of `findNearestTradingDay` misuses
`setDate` after a month rollover (the day-of-month of the *original*
target is applied to the *advanced* month), so from 2020-01-28 it
visits Jan 29, 30, 31, Feb 1 and then jumps to Mar 4, Apr 3, May 5,
Jun 5, Jul 7, Aug 7: it returns `null` although 2020-02-03 is a trading
day only 6 calendar days after the nominal date. -/
theorem findNearestTradingDay_month_rollover_bug :
    findNearestTradingDay ⟨2020, 1, 28⟩ [dateToDayNum ⟨2020, 2, 3⟩]
      "after" = none ∧
    dateToDayNum ⟨2020, 2, 3⟩ - dateToDayNum ⟨2020, 1, 28⟩ = 6 ∧
    ((6 : Int) ≤ 10) ∧
    dateToDayNum ⟨2020, 2, 3⟩ ∈ [dateToDayNum ⟨2020, 2, 3⟩] := by
  refine ⟨by decide, by decide, by decide, by decide⟩

/-- Two-bar demonstration series: exact trading days on 2020-11-19 and
2021-01-19. -/
def toyDemoData : List PricePoint :=
  [⟨dateToDayNum ⟨2020, 11, 19⟩, 100, 100, 100, 100, 0, none⟩,
   ⟨dateToDayNum ⟨2021, 1, 19⟩, 110, 110, 110, 110, 0, none⟩]

/-- TOY request with `threshold = 25`, outside the documented [0, 20]
range. -/
def toyDemoParams : TOYParams :=
  { ticker := "SPY"
    first_year := 2020
    last_year := 2021
    toy_start := "11-19".toList
    toy_end := "01-19".toList
    threshold := 25
    forward_days := [5, 10, 15, 20, 40, 63, 126, 252] }

/-- C2 -- `analyze` never invokes `validateParameters`: with
`threshold = 25` (outside [0, 20]) the dead validator would flag the
request, yet the engine runs the full analysis and returns a success
with the 2020 period analysed instead of rejecting it before any
analysis. -/
theorem toy_threshold_not_validated :
    validateParameters toyDemoParams =
      ["Threshold should be between 0% and 20%"] ∧
    (TOYanalyze toyDemoParams toyDemoData).isSuccess = true ∧
    (TOYanalyze toyDemoParams toyDemoData).periods.map
      (fun r => r.event.year) = [2020] := by
  refine ⟨by decide, by decide, by decide⟩

/-- Every member of the guarded year loop comes from a succeeding year. -/
theorem toyLoop_mem_ok (f : Int → Except String TOYResult) :
    ∀ (ys : List Int) (r : TOYResult), r ∈ toyLoop f ys →
      ∃ y ∈ ys, f y = .ok r := by
  intro ys
  induction ys with
  | nil => intro r h; simp [toyLoop] at h
  | cons y ys ih =>
      intro r h
      rw [toyLoop] at h
      cases hy : f y with
      | ok r' =>
          rw [hy] at h
          rcases List.mem_cons.mp h with h' | h'
          · exact ⟨y, List.mem_cons_self y ys, by rw [hy, h']⟩
          · obtain ⟨y', hy', hf⟩ := ih r h'
            exact ⟨y', List.mem_cons_of_mem y hy', hf⟩
      | error e =>
          rw [hy] at h
          obtain ⟨y', hy', hf⟩ := ih r h
          exact ⟨y', List.mem_cons_of_mem y hy', hf⟩

/-- A succeeding year's result is always in the guarded loop's output:
earlier failures do not abort the iteration. -/
theorem toyLoop_complete (f : Int → Except String TOYResult) :
    ∀ (ys : List Int) (y : Int) (r : TOYResult), y ∈ ys → f y = .ok r →
      r ∈ toyLoop f ys := by
  intro ys
  induction ys with
  | nil => intro y r h; simp at h
  | cons y' ys ih =>
      intro y r hmem hok
      rw [toyLoop]
      rcases List.mem_cons.mp hmem with h' | h'
      · subst h'
        rw [hok]
        exact List.mem_cons_self _ _
      · cases hy' : f y' with
        | ok r' => exact List.mem_cons_of_mem _ (ih y r h' hok)
        | error e => exact ih y r h' hok

/-- A successful `analyzeTOYPeriod` tags its event with its own year. -/
theorem analyzeTOYPeriod_year (year : Int) (s e : List Char)
    (data : List PricePoint) (threshold : ℚ) (fd : List Nat)
    (r : TOYResult)
    (h : analyzeTOYPeriod year s e data threshold fd = .ok r) :
    r.event.year = year := by
  simp only [analyzeTOYPeriod] at h
  split at h
  · split at h
    · injection h with h'
      subst h'
      rfl
    · simp at h
  · simp at h

/-- C7 -- a year whose window cannot be resolved is non-fatal: the
analysis still succeeds, that year is absent from the results, and
every other year that resolves is still analysed and present. -/
theorem toy_year_failure_nonfatal (p : TOYParams) (data : List PricePoint)
    (y0 : Int) (e : String)
    (hval : validateTOYDates p.toy_start p.toy_end = [])
    (hdata : data ≠ [])
    (hy0 : y0 ∈ yearRange p.first_year p.last_year)
    (hfail : analyzeTOYPeriod y0 p.toy_start p.toy_end data p.threshold
      p.forward_days = .error e) :
    (TOYanalyze p data).isSuccess = true ∧
    (∀ r ∈ (TOYanalyze p data).periods, r.event.year ≠ y0) ∧
    (∀ y ∈ yearRange p.first_year p.last_year, ∀ r,
      analyzeTOYPeriod y p.toy_start p.toy_end data p.threshold
        p.forward_days = .ok r →
      r ∈ (TOYanalyze p data).periods) := by
  have hde : (data.isEmpty) = false := by
    cases data with
    | nil => exact absurd rfl hdata
    | cons a as => rfl
  have hresp : TOYanalyze p data =
      .success ((toyLoop
          (fun y => analyzeTOYPeriod y p.toy_start p.toy_end data p.threshold
            p.forward_days) (yearRange p.first_year p.last_year)).map
            (fun r => r.event))
        ((toyLoop (fun y => analyzeTOYPeriod y p.toy_start p.toy_end data
            p.threshold p.forward_days)
          (yearRange p.first_year p.last_year)).map (fun r => r.event)).length
        (toyLoop (fun y => analyzeTOYPeriod y p.toy_start p.toy_end data
            p.threshold p.forward_days) (yearRange p.first_year p.last_year))
        (calculateTOYSummary
          (toyLoop (fun y => analyzeTOYPeriod y p.toy_start p.toy_end data
            p.threshold p.forward_days) (yearRange p.first_year p.last_year))
          p.threshold) := by
    simp only [TOYanalyze, hval, hde, List.isEmpty_nil, not_true_eq_false,
      if_false, Bool.false_eq_true, if_neg]
  refine ⟨by rw [hresp]; rfl, ?_, ?_⟩
  · intro r hr hyear
    rw [hresp] at hr
    simp only [TOYResponse.periods] at hr
    obtain ⟨y, hy, hok⟩ := toyLoop_mem_ok _ _ r hr
    have hyr := analyzeTOYPeriod_year y p.toy_start p.toy_end data p.threshold
      p.forward_days r hok
    have hyy : y = y0 := hyr.symm.trans hyear
    rw [hyy] at hok
    rw [hfail] at hok
    cases hok
  · intro y hy r hok
    rw [hresp]
    simp only [TOYResponse.periods]
    exact toyLoop_complete _ _ y r hy hok

/-- Witness for C7: the demonstration request resolves 2020 but not
2021 (no trading day within the searched window), and the analysis
still succeeds with 2021 absent. -/
theorem toy_year_failure_nonfatal_witness :
    (TOYanalyze toyDemoParams toyDemoData).isSuccess = true ∧
    (∀ r ∈ (TOYanalyze toyDemoParams toyDemoData).periods,
      r.event.year ≠ 2021) ∧
    (∀ y ∈ yearRange 2020 2021, ∀ r,
      analyzeTOYPeriod y toyDemoParams.toy_start toyDemoParams.toy_end
        toyDemoData toyDemoParams.threshold toyDemoParams.forward_days =
        .ok r →
      r ∈ (TOYanalyze toyDemoParams toyDemoData).periods) :=
  toy_year_failure_nonfatal toyDemoParams toyDemoData 2021
    "No trading days found for TOY period"
    (by decide) (by decide) (by decide) (by rfl)

/-! ## ContextualFilterService (contextual-filters.js)

Dates are handled as day numbers (the JS parses each date string with
`new Date` before comparing).  The per-(start,end) cache is a
transparent memo of these pure table builders and is not modelled.
All three regime predicates are invoked with their default year range
2020-2024, as in the source. -/

/-- `getEarningsSeasonDates` windows (start day, end day), four fixed
windows per year with Q4 in the following year and skipped for the
final year. -/
def earningsSeasonWindows (startYear endYear : Int) : List (Int × Int) :=
  ((yearRange startYear endYear).map (fun y =>
    [(dateToDayNum ⟨y, 4, 15⟩, dateToDayNum ⟨y, 5, 15⟩),
     (dateToDayNum ⟨y, 7, 15⟩, dateToDayNum ⟨y, 8, 15⟩),
     (dateToDayNum ⟨y, 10, 15⟩, dateToDayNum ⟨y, 11, 15⟩)] ++
    (if y < endYear then
       [(dateToDayNum ⟨y + 1, 1, 15⟩, dateToDayNum ⟨y + 1, 2, 15⟩)]
     else []))).flatten

def isEarningsSeason (d : Int) : Bool :=
  (earningsSeasonWindows 2020 2024).any (fun w =>
    decide (w.1 ≤ d) && decide (d ≤ w.2))

/-- The fixed FOMC meeting-date table (lines 94-145). -/
def fedMeetingDays : List Int :=
  [dateToDayNum ⟨2020, 1, 29⟩, dateToDayNum ⟨2020, 3, 15⟩,
   dateToDayNum ⟨2020, 3, 3⟩, dateToDayNum ⟨2020, 4, 29⟩,
   dateToDayNum ⟨2020, 6, 10⟩, dateToDayNum ⟨2020, 7, 29⟩,
   dateToDayNum ⟨2020, 9, 16⟩, dateToDayNum ⟨2020, 11, 5⟩,
   dateToDayNum ⟨2020, 12, 16⟩,
   dateToDayNum ⟨2021, 1, 27⟩, dateToDayNum ⟨2021, 3, 17⟩,
   dateToDayNum ⟨2021, 4, 28⟩, dateToDayNum ⟨2021, 6, 16⟩,
   dateToDayNum ⟨2021, 7, 28⟩, dateToDayNum ⟨2021, 9, 22⟩,
   dateToDayNum ⟨2021, 11, 3⟩, dateToDayNum ⟨2021, 12, 15⟩,
   dateToDayNum ⟨2022, 1, 26⟩, dateToDayNum ⟨2022, 3, 16⟩,
   dateToDayNum ⟨2022, 5, 4⟩, dateToDayNum ⟨2022, 6, 15⟩,
   dateToDayNum ⟨2022, 7, 27⟩, dateToDayNum ⟨2022, 9, 21⟩,
   dateToDayNum ⟨2022, 11, 2⟩, dateToDayNum ⟨2022, 12, 14⟩,
   dateToDayNum ⟨2023, 2, 1⟩, dateToDayNum ⟨2023, 3, 22⟩,
   dateToDayNum ⟨2023, 5, 3⟩, dateToDayNum ⟨2023, 6, 14⟩,
   dateToDayNum ⟨2023, 7, 26⟩, dateToDayNum ⟨2023, 9, 20⟩,
   dateToDayNum ⟨2023, 11, 1⟩, dateToDayNum ⟨2023, 12, 13⟩,
   dateToDayNum ⟨2024, 1, 31⟩, dateToDayNum ⟨2024, 3, 20⟩,
   dateToDayNum ⟨2024, 5, 1⟩, dateToDayNum ⟨2024, 6, 12⟩,
   dateToDayNum ⟨2024, 7, 31⟩, dateToDayNum ⟨2024, 9, 18⟩,
   dateToDayNum ⟨2024, 11, 7⟩, dateToDayNum ⟨2024, 12, 18⟩]

/-- `isFedMeetingWeek`: within meeting date ±3 calendar days
(the two single `setDate` calls are exact ±3-day arithmetic). -/
def isFedMeetingWeek (d : Int) : Bool :=
  fedMeetingDays.any (fun m => decide (m - 3 ≤ d) && decide (d ≤ m + 3))

/-- `getThirdFriday` (month 1-based here; the JS passes a 0-based
month to the Date constructor). -/
def getThirdFriday (y m : Int) : Int :=
  let firstDay := dateToDayNum ⟨y, m, 1⟩
  let firstFriday := firstDay + (5 - weekday firstDay + 7).emod 7
  firstFriday + 14

/-- `getOptionsExpirationDates` for 2020-2024: every month's third
Friday (quarterly months are listed twice, once flagged triple
witching -- the window test only needs the days). -/
def optionsExpirationDays : List Int :=
  ((yearRange 2020 2024).map (fun y =>
    ((List.range 12).map (fun m0 =>
      let tf := getThirdFriday y (m0 + 1)
      if m0 = 2 ∨ m0 = 5 ∨ m0 = 8 ∨ m0 = 11 then [tf, tf] else [tf])).flatten)).flatten

/-- `isOptionsExpirationWeek`: within third Friday −4/+2 calendar days. -/
def isOptionsExpirationWeek (d : Int) : Bool :=
  optionsExpirationDays.any (fun tf =>
    decide (tf - 4 ≤ d) && decide (d ≤ tf + 2))

def dayNameMap : List (String × Nat) :=
  [("SUNDAY", 0), ("MONDAY", 1), ("TUESDAY", 2), ("WEDNESDAY", 3),
   ("THURSDAY", 4), ("FRIDAY", 5), ("SATURDAY", 6)]

/-- `filterByDayOfWeek`: an unknown day name maps to `none`
(`undefined` in JS) and then never equals an actual weekday. -/
def filterByDayOfWeek (dates : List Int) (targetDays : List String) :
    List Int :=
  let targetNums := targetDays.map (fun s =>
    (dayNameMap.find? (fun p => p.1 = s.toUpper)).map (fun p => p.2))
  dates.filter (fun d => decide (some (weekday d).toNat ∈ targetNums))

structure AdditionalFilters where
  day_filter : Option (List String)
  month_filter : Option (List Int)
deriving DecidableEq, Repr

/-- One `switch (filter)` step of `applyContextFilters`: the
DAY_OF_WEEK / MONTH_OF_YEAR cases are inert without their additional
filter, and an unrecognized name only logs a warning. -/
def applyFilterStep (dates : List Int) (f : String)
    (af : AdditionalFilters) : List Int :=
  if f = "EARNINGS_SEASON" then dates.filter (fun d => isEarningsSeason d)
  else if f = "FED_MEETING" then dates.filter (fun d => isFedMeetingWeek d)
  else if f = "OPTIONS_EXPIRATION" then
    dates.filter (fun d => isOptionsExpirationWeek d)
  else if f = "DAY_OF_WEEK" then
    match af.day_filter with
    | some tds => filterByDayOfWeek dates tds
    | none => dates
  else if f = "MONTH_OF_YEAR" then
    match af.month_filter with
    | some months => dates.filter (fun d =>
        decide ((dayNumToDate d).month ∈ months))
    | none => dates
  else dates

/-- `ContextualFilterService.applyContextFilters` (lines 259-307). -/
def applyContextFilters (dates : List Int) (filters : List String)
    (af : AdditionalFilters) : List Int :=
  filters.foldl (fun acc f => applyFilterStep acc f af) dates

/-- Every single step keeps a sublist of its input. -/
theorem applyFilterStep_sublist (dates : List Int) (f : String)
    (af : AdditionalFilters) :
    List.Sublist (applyFilterStep dates f af) dates := by
  unfold applyFilterStep
  split_ifs
  · exact List.filter_sublist dates
  · exact List.filter_sublist dates
  · exact List.filter_sublist dates
  · cases af.day_filter with
    | some tds => exact List.filter_sublist dates
    | none => exact List.Sublist.refl dates
  · cases af.month_filter with
    | some ms => exact List.filter_sublist dates
    | none => exact List.Sublist.refl dates
  · exact List.Sublist.refl dates

theorem applyContextFilters_sublist_aux (af : AdditionalFilters) :
    ∀ (filters : List String) (dates : List Int),
      List.Sublist (applyContextFilters dates filters af) dates := by
  intro filters
  induction filters with
  | nil => intro dates; exact List.Sublist.refl dates
  | cons f fs ih =>
      intro dates
      exact List.Sublist.trans (ih (applyFilterStep dates f af))
        (applyFilterStep_sublist dates f af)

/-- C10 -- `applyContextFilters` returns a subsequence of its input
(no date added, relative order preserved); an unrecognized filter name
leaves the list unchanged at that step, as does DAY_OF_WEEK or
MONTH_OF_YEAR without its additional filter. -/
theorem applyContextFilters_subsequence (dates : List Int)
    (filters : List String) (af : AdditionalFilters) :
    List.Sublist (applyContextFilters dates filters af) dates ∧
    (∀ f, f ∉ ["EARNINGS_SEASON", "FED_MEETING", "OPTIONS_EXPIRATION",
        "DAY_OF_WEEK", "MONTH_OF_YEAR"] →
      applyFilterStep dates f af = dates) ∧
    (af.day_filter = none → applyFilterStep dates "DAY_OF_WEEK" af = dates) ∧
    (af.month_filter = none →
      applyFilterStep dates "MONTH_OF_YEAR" af = dates) := by
  refine ⟨applyContextFilters_sublist_aux af filters dates, ?_, ?_, ?_⟩
  · intro f hf
    simp only [List.mem_cons, List.not_mem_nil, or_false, not_or] at hf
    obtain ⟨h1, h2, h3, h4, h5⟩ := hf
    simp [applyFilterStep, h1, h2, h3, h4, h5]
  · intro h
    simp [applyFilterStep, h]
  · intro h
    simp [applyFilterStep, h]

/-- Witness for C10 at a concrete date list, an unknown filter name and
empty additional filters. -/
theorem applyContextFilters_subsequence_witness :
    List.Sublist
      (applyContextFilters [18585, 18646] ["FED_MEETING"] ⟨none, none⟩)
      [18585, 18646] ∧
    applyFilterStep [18585] "NOT_A_FILTER" ⟨none, none⟩ = [18585] ∧
    applyFilterStep [18585] "DAY_OF_WEEK" ⟨none, none⟩ = [18585] ∧
    applyFilterStep [18585] "MONTH_OF_YEAR" ⟨none, none⟩ = [18585] :=
  ⟨(applyContextFilters_subsequence [18585, 18646] ["FED_MEETING"]
      ⟨none, none⟩).1,
   (applyContextFilters_subsequence [18585] [] ⟨none, none⟩).2.1
     "NOT_A_FILTER" (by decide),
   (applyContextFilters_subsequence [18585] [] ⟨none, none⟩).2.2.1 rfl,
   (applyContextFilters_subsequence [18585] [] ⟨none, none⟩).2.2.2 rfl⟩
